import Mathlib

/-!
Shallow embedding of the `versionize` crate's core (src/lib.rs and
src/version_map.rs): the `VersionizeError` taxonomy, the `VersionMap`
compatibility registry (`get_crate_version` / `set_crate_version`), the
`Versionize` implementation for `semver::Version` (serialize /
deserialize as three consecutive little-endian 16-bit fields), and the
root-version resolution engine shown in the module documentation of
src/version_map.rs.

Machine integers are modelled as `Nat` (bytes are `Nat`s below 256,
u16 values are `Nat`s below 65536); the `HashMap<String, semver::Version>`
is modelled as an association list without duplicate keys; fallible Rust
functions returning `VersionizeResult<T>` become Lean functions into
`Except VersionizeError T`; `&mut self` methods take and return the state
explicitly.
-/

deriving instance DecidableEq for Except

/-- The external `semver::Version` type as used by src/version_map.rs:
numeric major/minor/patch components plus pre-release and build metadata
(modelled as plain strings; only their emptiness and literal content
matter to the code under verification). -/
structure Version where
  major : Nat
  minor : Nat
  patch : Nat
  pre : String
  build : String
deriving DecidableEq

/-- `semver::Version::new(major, minor, patch)`: a release-only version. -/
def Version.new (major minor patch : Nat) : Version :=
  ⟨major, minor, patch, "", ""⟩

/-- `semver::Version`'s `Display`: `major.minor.patch`, then `-pre` when a
pre-release is present and `+build` when build metadata is present. -/
def Version.toString (v : Version) : String :=
  Nat.repr v.major ++ "." ++ Nat.repr v.minor ++ "." ++ Nat.repr v.patch
    ++ (if v.pre = "" then "" else "-" ++ v.pre)
    ++ (if v.build = "" then "" else "+" ++ v.build)

/-- The error enum of src/lib.rs (lines 44-57) together with the four
further variants that src/version_map.rs constructs
(`UnsuportVersion`, `ParseVersion`, `MultipleVersion`, `NotFoundCrate`);
those four are declared in code of this repository not present under
src/, and are modelled here from the spec's error taxonomy
(`UnsupportedVersion`, `ParseVersion`, `MultipleVersion`, `NotFoundName`)
with the payloads the call sites in src/version_map.rs pass. -/
inductive VersionizeError where
  | Io : Int → VersionizeError
  | Serialize : String → VersionizeError
  | Deserialize : String → VersionizeError
  | Semantic : String → VersionizeError
  | StringLength : Nat → VersionizeError
  | VecLength : Nat → VersionizeError
  | UnsuportVersion : String → VersionizeError
  | ParseVersion : String → String → VersionizeError
  | MultipleVersion : String → String → String → VersionizeError
  | NotFoundCrate : String → VersionizeError
deriving DecidableEq

/-- `pub const MAX_VERSION_NUM: u64 = u16::MAX as u64;` -/
def MAX_VERSION_NUM : Nat := 65535

/-- `VersionMap` of src/version_map.rs (lines 72-75): the named
compatibility registry, `crates: HashMap<String, semver::Version>`,
modelled as an association list (no key occurs twice by construction). -/
structure VersionMap where
  crates : List (String × Version)
deriving DecidableEq

/-- `VersionMap::new()` = `Default::default()`: an empty registry. -/
def VersionMap.new : VersionMap :=
  ⟨[]⟩

/-- `VersionMap::get_crate_version`: look the name up, failing with
`NotFoundCrate` when absent. -/
def VersionMap.get_crate_version (m : VersionMap) (crate_name : String) :
    Except VersionizeError Version :=
  match m.crates.lookup crate_name with
  | some v => .ok v
  | none => .error (.NotFoundCrate crate_name)

/-- Drop everything up to and including the first occurrence of `c`; the
first component is what precedes it, the second is `some` remainder when
`c` occurs at all. Helper for the semver grammar split at `-` and `+`. -/
def breakAt (c : Char) : List Char → List Char × Option (List Char)
  | [] => ([], none)
  | x :: xs =>
    if x = c then ([], some xs)
    else
      let r := breakAt c xs
      (x :: r.1, r.2)

/-- Split a character list at every `.`; always returns at least one
(possibly empty) part. Helper for the `major.minor.patch` core. -/
def splitDots : List Char → List (List Char)
  | [] => [[]]
  | x :: xs =>
    if x = '.' then [] :: splitDots xs
    else
      match splitDots xs with
      | [] => [[x]]
      | p :: ps => (x :: p) :: ps

/-- Numeric value of a digit list, most significant first. -/
def digitsVal (l : List Char) : Nat :=
  l.foldl (fun a c => a * 10 + (c.toNat - 48)) 0

/-- A semver numeric component: non-empty, all digits, no leading zero. -/
def numComponent (l : List Char) : Option Nat :=
  if l = [] then none
  else if ¬ l.all (fun c => c.isDigit) then none
  else if 1 < l.length ∧ l.head? = some '0' then none
  else some (digitsVal l)

/-- The external `semver::Version::parse`: `major.minor.patch` with
optional `-pre` and `+build` suffixes (the repository's own tests rely on
pre-release and build metadata parsing successfully); the error payload
is the parse error's display string. -/
def Version.parse (s : String) : Except String Version :=
  let b := breakAt '+' s.data
  let p := breakAt '-' b.1
  match splitDots p.1 with
  | [x, y, z] =>
    match numComponent x, numComponent y, numComponent z with
    | some ma, some mi, some pa =>
      match p.2, b.2 with
      | some [], _ => .error "empty identifier segment in a pre-release"
      | _, some [] => .error "empty identifier segment in build metadata"
      | pr, bu => .ok ⟨ma, mi, pa, ⟨pr.getD []⟩, ⟨bu.getD []⟩⟩
    | _, _, _ => .error "invalid numeric component"
  | _ => .error "expected three dot-separated components"

/-- `VersionMap::set_crate_version`: parse the version string (failing
with `ParseVersion`), then insert it when the name is new, succeed as a
no-op when the identical version is already stored, and fail with
`MultipleVersion` when a different version is stored. The `&mut self`
method is modelled by returning the updated map alongside the result. -/
def VersionMap.set_crate_version (m : VersionMap) (crate_name ver : String) :
    Except VersionizeError Version × VersionMap :=
  match Version.parse ver with
  | .error e => (.error (.ParseVersion ver e), m)
  | .ok sem_ver =>
    match m.crates.lookup crate_name with
    | some exist =>
      if exist ≠ sem_ver then
        (.error (.MultipleVersion crate_name exist.toString ver), m)
      else
        (.ok sem_ver, m)
    | none => (.ok sem_ver, ⟨(crate_name, sem_ver) :: m.crates⟩)

/-- `bincode`'s encoding of a `u16`: two bytes, little endian. -/
def le16 (n : Nat) : List Nat :=
  [n % 256, n / 256]

/-- `bincode::deserialize_from` for a `u16`: consume two little-endian
bytes, failing (as the Rust code maps it, with `Deserialize`) when the
source is exhausted. -/
def rd16 : List Nat → Except VersionizeError (Nat × List Nat)
  | b0 :: b1 :: rest => .ok (b0 + b1 * 256, rest)
  | _ => .error (.Deserialize "Io(Kind(UnexpectedEof))")

/-- `<semver::Version as Versionize>::serialize` (src/version_map.rs
lines 123-146): reject pre-release/build metadata and components above
`MAX_VERSION_NUM` with `UnsuportVersion`, otherwise write major, minor
and patch as three consecutive 16-bit fields. The byte sink is a growable
buffer, so the `bincode` writes themselves cannot fail. -/
def Version.serialize (v : Version) : Except VersionizeError (List Nat) :=
  if v.pre ≠ "" ∨ v.build ≠ "" then
    .error (.UnsuportVersion v.toString)
  else if v.major > MAX_VERSION_NUM ∨ v.minor > MAX_VERSION_NUM
      ∨ v.patch > MAX_VERSION_NUM then
    .error (.UnsuportVersion v.toString)
  else
    .ok (le16 v.major ++ le16 v.minor ++ le16 v.patch)

/-- `<semver::Version as Versionize>::deserialize` (src/version_map.rs
lines 148-166): read three 16-bit fields and rebuild the version with
`semver::Version::new`. The unread remainder of the source is returned so
that consumption can be stated. -/
def Version.deserialize (l : List Nat) :
    Except VersionizeError (Version × List Nat) :=
  match rd16 l with
  | .error e => .error e
  | .ok (major, r1) =>
    match rd16 r1 with
    | .error e => .error e
    | .ok (minor, r2) =>
      match rd16 r2 with
      | .error e => .error e
      | .ok (patch, r3) => .ok (Version.new major minor patch, r3)

/-- Modelled from the spec: the root-version resolution engine whose
implementation is not under src/ — only its doc-comment example
(src/version_map.rs lines 35-59) and the spec describe it. Per the spec
it is an ordered, append-only sequence of root versions, each carrying a
sparse override set `TypeIdentity → TypeVersion` (type identities are
stable tokens, modelled as `Nat`). -/
structure RootVersionMap where
  versions : List (List (Nat × Nat))
deriving DecidableEq

/-- Modelled from the spec: `create()` yields a map with exactly one root
version (root 1) and no overrides. -/
def RootVersionMap.new : RootVersionMap :=
  ⟨[[]]⟩

/-- Modelled from the spec: `begin_new_root()` (the doc example's
`new_version()`) appends a root whose overrides default to inherit. -/
def RootVersionMap.new_version (m : RootVersionMap) : RootVersionMap :=
  ⟨m.versions ++ [[]]⟩

/-- Modelled from the spec: `set_type_version(type, version)` records the
override for `type` at the current latest root. -/
def RootVersionMap.set_type_version (m : RootVersionMap) (t ver : Nat) :
    RootVersionMap :=
  ⟨m.versions.dropLast ++ [(t, ver) :: m.versions.getLast?.getD []]⟩

/-- Modelled from the spec: `latest_root()` (the doc example's
`latest_version()`) is the count of root versions created so far. -/
def RootVersionMap.latest_version (m : RootVersionMap) : Nat :=
  m.versions.length

/-- First explicit override for `t` in a list of override sets ordered
newest first; defaults to 1. -/
def firstOverride (t : Nat) : List (List (Nat × Nat)) → Nat
  | [] => 1
  | r :: rs =>
    match r.lookup t with
    | some v => v
    | none => firstOverride t rs

/-- Modelled from the spec: `resolve(root, type)` (the doc example's
`get_type_version`) walks root versions backward from `root` to 1 and
returns the first explicit override found, else 1; it fails (here:
`none`) when `root > latest_root()`. -/
def RootVersionMap.get_type_version (m : RootVersionMap) (root t : Nat) :
    Option Nat :=
  if root ≤ m.versions.length then
    some (firstOverride t ((m.versions.take root).reverse))
  else
    none

/-! Theorems settling the specification claims. -/

/-- Claim C7: `VersionizeError` is a discriminated union providing exactly
the cases `Io`, `Serialize`, `Deserialize`, `Semantic`, `StringLength`,
`VecLength`, `UnsupportedVersion` (source spelling `UnsuportVersion`),
`ParseVersion`, `MultipleVersion` and `NotFoundName` (source spelling
`NotFoundCrate`), and every failure of the core operations is returned as
a value of this union rather than escaping as an unrecoverable fault. -/
theorem versionizeError_cases (e : VersionizeError) :
    ((∃ n, e = .Io n) ∨ (∃ s, e = .Serialize s) ∨ (∃ s, e = .Deserialize s) ∨
      (∃ s, e = .Semantic s) ∨ (∃ n, e = .StringLength n) ∨
      (∃ n, e = .VecLength n) ∨ (∃ s, e = .UnsuportVersion s) ∨
      (∃ a b, e = .ParseVersion a b) ∨ (∃ a b c, e = .MultipleVersion a b c) ∨
      (∃ s, e = .NotFoundCrate s)) ∧
    (∀ (m : VersionMap) (name ver : String),
      (∃ v m2, m.set_crate_version name ver = (.ok v, m2)) ∨
      (∃ e2 m2, m.set_crate_version name ver = (.error e2, m2))) ∧
    (∀ (m : VersionMap) (name : String),
      (∃ v, m.get_crate_version name = .ok v) ∨
      (∃ e2, m.get_crate_version name = .error e2)) ∧
    (∀ v : Version,
      (∃ b, v.serialize = .ok b) ∨ (∃ e2, v.serialize = .error e2)) ∧
    (∀ l : List Nat,
      (∃ r, Version.deserialize l = .ok r) ∨
      (∃ e2, Version.deserialize l = .error e2)) := by
  refine ⟨?_, ?_, ?_, ?_, ?_⟩
  · cases e <;> simp
  · intro m name ver
    rcases hr : m.set_crate_version name ver with ⟨e2 | v, m2⟩
    · exact .inr ⟨e2, m2, rfl⟩
    · exact .inl ⟨v, m2, rfl⟩
  · intro m name
    rcases hr : m.get_crate_version name with e2 | v
    · exact .inr ⟨e2, rfl⟩
    · exact .inl ⟨v, rfl⟩
  · intro v
    rcases hr : v.serialize with e2 | b
    · exact .inr ⟨e2, rfl⟩
    · exact .inl ⟨b, rfl⟩
  · intro l
    rcases hr : Version.deserialize l with e2 | r
    · exact .inr ⟨e2, rfl⟩
    · exact .inl ⟨r, rfl⟩

/-- Claim C6: `create()` yields a map with exactly one root version (no
overrides), so `latest_root() == 1` and `resolve(1, T) == 1` for every
type `T`; the compatibility registry of `VersionMap::new()` starts empty. -/
theorem create_initial_map :
    VersionMap.new.crates = [] ∧
    RootVersionMap.new.versions = [[]] ∧
    RootVersionMap.new.latest_version = 1 ∧
    ∀ T : Nat, RootVersionMap.new.get_type_version 1 T = some 1 :=
  ⟨rfl, rfl, rfl, fun _ => rfl⟩

/-- Claim C8: `get_compat(name)` (source `get_crate_version`) fails with
`NotFoundName` (source `NotFoundCrate`) when `name` was never set, and
returns the previously stored semantic version when it was. -/
theorem get_compat_spec (m : VersionMap) (name : String) :
    (m.crates.lookup name = none →
      m.get_crate_version name = .error (.NotFoundCrate name)) ∧
    (∀ v, m.crates.lookup name = some v → m.get_crate_version name = .ok v) := by
  constructor
  · intro h
    simp [VersionMap.get_crate_version, h]
  · intro v h
    simp [VersionMap.get_crate_version, h]

/-- Witness for C8 at a concrete registry. -/
theorem get_compat_spec_witness :
    VersionMap.new.get_crate_version "foo" = .error (.NotFoundCrate "foo") ∧
    (VersionMap.mk [("foo", Version.new 1 0 0)]).get_crate_version "foo"
      = .ok (Version.new 1 0 0) :=
  ⟨(get_compat_spec VersionMap.new "foo").1 (by decide),
    (get_compat_spec ⟨[("foo", Version.new 1 0 0)]⟩ "foo").2
      (Version.new 1 0 0) (by decide)⟩

/-- Claim C10: whenever `set_crate_version` returns an error, the
registry is left exactly as it was: the state is unchanged and
`get_crate_version` answers the same for every name. -/
theorem set_compat_error_preserves_state (m : VersionMap) (name ver : String)
    (h : ∃ e, (m.set_crate_version name ver).1 = .error e) :
    (m.set_crate_version name ver).2 = m ∧
    ∀ n, (m.set_crate_version name ver).2.get_crate_version n
      = m.get_crate_version n := by
  have hm : (m.set_crate_version name ver).2 = m := by
    rcases hp : Version.parse ver with pe | sv
    · simp [VersionMap.set_crate_version, hp]
    · rcases hl : m.crates.lookup name with _ | ex
      · obtain ⟨e, he⟩ := h
        simp [VersionMap.set_crate_version, hp, hl] at he
      · by_cases hx : ex = sv
        · subst hx
          simp [VersionMap.set_crate_version, hp, hl]
        · simp [VersionMap.set_crate_version, hp, hl, hx]
  exact ⟨hm, fun n => by rw [hm]⟩

/-- Witness for C10: a `MultipleVersion` failure leaves the registry as
it was. -/
theorem set_compat_error_preserves_state_witness :
    ((VersionMap.mk [("foo", Version.new 1 0 0)]).set_crate_version
        "foo" "2.0.0").2
      = VersionMap.mk [("foo", Version.new 1 0 0)] :=
  (set_compat_error_preserves_state ⟨[("foo", Version.new 1 0 0)]⟩
    "foo" "2.0.0"
    ⟨.MultipleVersion "foo" "1.0.0" "2.0.0", by decide⟩).1

/-- Claim C4: `set_compat(name, version_string)` (source
`set_crate_version`) parses the string (failing `ParseVersion` when it is
not a semantic version), stores the parsed version when the name is
unseen, succeeds as a no-op when the identical version is already stored,
and fails with `MultipleVersion` when a different version is stored. -/
theorem set_compat_spec (m : VersionMap) (name ver : String) :
    (∀ e, Version.parse ver = .error e →
      m.set_crate_version name ver = (.error (.ParseVersion ver e), m)) ∧
    (∀ sv, Version.parse ver = .ok sv → m.crates.lookup name = none →
      m.set_crate_version name ver = (.ok sv, ⟨(name, sv) :: m.crates⟩)) ∧
    (∀ sv, Version.parse ver = .ok sv → m.crates.lookup name = some sv →
      m.set_crate_version name ver = (.ok sv, m)) ∧
    (∀ sv ex, Version.parse ver = .ok sv → m.crates.lookup name = some ex →
      ex ≠ sv →
      m.set_crate_version name ver
        = (.error (.MultipleVersion name ex.toString ver), m)) := by
  refine ⟨?_, ?_, ?_, ?_⟩
  · intro e hp
    simp [VersionMap.set_crate_version, hp]
  · intro sv hp hl
    simp [VersionMap.set_crate_version, hp, hl]
  · intro sv hp hl
    simp [VersionMap.set_crate_version, hp, hl]
  · intro sv ex hp hl hx
    simp [VersionMap.set_crate_version, hp, hl, hx]

/-- Witness for C4: `"foo" := "1.0.0"` stores, the identical assignment
is a no-op, `"2.0.0"` afterward fails `MultipleVersion`, and
`"not-a-version"` fails `ParseVersion`. -/
theorem set_compat_spec_witness :
    VersionMap.new.set_crate_version "foo" "1.0.0"
      = (.ok (Version.new 1 0 0), ⟨[("foo", Version.new 1 0 0)]⟩) ∧
    (VersionMap.mk [("foo", Version.new 1 0 0)]).set_crate_version
        "foo" "1.0.0"
      = (.ok (Version.new 1 0 0), ⟨[("foo", Version.new 1 0 0)]⟩) ∧
    (VersionMap.mk [("foo", Version.new 1 0 0)]).set_crate_version
        "foo" "2.0.0"
      = (.error (.MultipleVersion "foo" (Version.new 1 0 0).toString "2.0.0"),
          ⟨[("foo", Version.new 1 0 0)]⟩) ∧
    VersionMap.new.set_crate_version "foo" "not-a-version"
      = (.error (.ParseVersion "not-a-version"
          "expected three dot-separated components"), VersionMap.new) :=
  ⟨(set_compat_spec VersionMap.new "foo" "1.0.0").2.1
      (Version.new 1 0 0) (by decide) (by decide),
    (set_compat_spec ⟨[("foo", Version.new 1 0 0)]⟩ "foo" "1.0.0").2.2.1
      (Version.new 1 0 0) (by decide) (by decide),
    (set_compat_spec ⟨[("foo", Version.new 1 0 0)]⟩ "foo" "2.0.0").2.2.2
      (Version.new 2 0 0) (Version.new 1 0 0) (by decide) (by decide)
      (by decide),
    (set_compat_spec VersionMap.new "foo" "not-a-version").1
      "expected three dot-separated components" (by decide)⟩

/-- Claim C1: from a fresh map, `begin_new_root()` + `set_type_version(A,2)`
then `begin_new_root()` + `set_type_version(B,2)` give `latest_root() == 3`
with resolutions A,B = 1,1 at root 1; 2,1 at root 2; 2,2 at root 3. -/
theorem worked_map_fixture (A B : Nat) (hAB : A ≠ B) :
    ((((RootVersionMap.new.new_version).set_type_version A 2).new_version).set_type_version
        B 2).latest_version = 3 ∧
    ((((RootVersionMap.new.new_version).set_type_version A 2).new_version).set_type_version
        B 2).get_type_version 1 A = some 1 ∧
    ((((RootVersionMap.new.new_version).set_type_version A 2).new_version).set_type_version
        B 2).get_type_version 1 B = some 1 ∧
    ((((RootVersionMap.new.new_version).set_type_version A 2).new_version).set_type_version
        B 2).get_type_version 2 A = some 2 ∧
    ((((RootVersionMap.new.new_version).set_type_version A 2).new_version).set_type_version
        B 2).get_type_version 2 B = some 1 ∧
    ((((RootVersionMap.new.new_version).set_type_version A 2).new_version).set_type_version
        B 2).get_type_version 3 A = some 2 ∧
    ((((RootVersionMap.new.new_version).set_type_version A 2).new_version).set_type_version
        B 2).get_type_version 3 B = some 2 := by
  have hm : (((RootVersionMap.new.new_version).set_type_version A 2).new_version).set_type_version
      B 2 = ⟨[[], [(A, 2)], [(B, 2)]]⟩ := rfl
  have hBA : (B == A) = false := beq_eq_false_iff_ne.mpr (Ne.symm hAB)
  have hAB2 : (A == B) = false := beq_eq_false_iff_ne.mpr hAB
  rw [hm]
  refine ⟨rfl, ?_, ?_, ?_, ?_, ?_, ?_⟩ <;>
    simp [RootVersionMap.get_type_version, firstOverride, List.lookup, hBA, hAB2]

/-- Witness for C1 at the concrete type identities 0 and 1. -/
theorem worked_map_fixture_witness :
    ((((RootVersionMap.new.new_version).set_type_version 0 2).new_version).set_type_version
        1 2).latest_version = 3 ∧
    ((((RootVersionMap.new.new_version).set_type_version 0 2).new_version).set_type_version
        1 2).get_type_version 1 0 = some 1 ∧
    ((((RootVersionMap.new.new_version).set_type_version 0 2).new_version).set_type_version
        1 2).get_type_version 1 1 = some 1 ∧
    ((((RootVersionMap.new.new_version).set_type_version 0 2).new_version).set_type_version
        1 2).get_type_version 2 0 = some 2 ∧
    ((((RootVersionMap.new.new_version).set_type_version 0 2).new_version).set_type_version
        1 2).get_type_version 2 1 = some 1 ∧
    ((((RootVersionMap.new.new_version).set_type_version 0 2).new_version).set_type_version
        1 2).get_type_version 3 0 = some 2 ∧
    ((((RootVersionMap.new.new_version).set_type_version 0 2).new_version).set_type_version
        1 2).get_type_version 3 1 = some 2 :=
  worked_map_fixture 0 1 (by decide)

/-- Claim C2: serializing `3.0.14` writes the three consecutive 16-bit
little-endian fields 3, 0, 14, deserializing those bytes returns `3.0.14`
exactly, and for every release-only version with components at most
65535, serialization succeeds and deserializing its output reproduces the
original version with nothing left unread. -/
theorem semver_roundtrip :
    (Version.new 3 0 14).serialize = .ok [3, 0, 0, 0, 14, 0] ∧
    Version.deserialize [3, 0, 0, 0, 14, 0] = .ok (Version.new 3 0 14, []) ∧
    ∀ v : Version, v.pre = "" → v.build = "" →
      v.major ≤ MAX_VERSION_NUM → v.minor ≤ MAX_VERSION_NUM →
      v.patch ≤ MAX_VERSION_NUM →
      (∃ bytes, v.serialize = .ok bytes) ∧
      ∀ bytes, v.serialize = .ok bytes →
        Version.deserialize bytes = .ok (v, []) := by
  refine ⟨by decide, by decide, ?_⟩
  intro v hpre hbuild h1 h2 h3
  obtain ⟨ma, mi, pa, pre, bld⟩ := v
  simp only at hpre hbuild h1 h2 h3
  subst hpre hbuild
  have hc1 : ¬(("" : String) ≠ "" ∨ ("" : String) ≠ "") := by simp
  have hc2 : ¬(ma > MAX_VERSION_NUM ∨ mi > MAX_VERSION_NUM
      ∨ pa > MAX_VERSION_NUM) := by
    push_neg
    exact ⟨h1, h2, h3⟩
  have hser : Version.serialize ⟨ma, mi, pa, "", ""⟩
      = .ok (le16 ma ++ le16 mi ++ le16 pa) := by
    rw [Version.serialize, if_neg hc1, if_neg hc2]
  refine ⟨⟨le16 ma ++ le16 mi ++ le16 pa, hser⟩, ?_⟩
  intro bytes hb
  rw [hser] at hb
  obtain rfl : le16 ma ++ le16 mi ++ le16 pa = bytes := by
    injection hb
  simp only [le16, List.cons_append, List.nil_append]
  rw [Version.deserialize]
  simp only [rd16]
  rw [Version.new]
  have ema : ma % 256 + ma / 256 * 256 = ma := by omega
  have emi : mi % 256 + mi / 256 * 256 = mi := by omega
  have epa : pa % 256 + pa / 256 * 256 = pa := by omega
  simp [ema, emi, epa]

/-- Witness for C2 at the concrete version `1.2.3`. -/
theorem semver_roundtrip_witness :
    Version.deserialize [1, 0, 2, 0, 3, 0] = .ok (Version.new 1 2 3, []) :=
  (semver_roundtrip.2.2 (Version.new 1 2 3) rfl rfl (by decide) (by decide)
    (by decide)).2 [1, 0, 2, 0, 3, 0] (by decide)

/-- Claim C3: serialization fails with `UnsupportedVersion` (source
spelling `UnsuportVersion`) iff a component exceeds 65535 or pre-release
or build metadata is present; in particular `1.1.65536` and `1.0.0-alpha`
(which the semver parser accepts) both fail that way. -/
theorem semver_serialize_unsupported_iff :
    (Version.mk 1 1 65536 "" "").serialize
      = .error (.UnsuportVersion "1.1.65536") ∧
    Version.parse "1.0.0-alpha" = .ok ⟨1, 0, 0, "alpha", ""⟩ ∧
    (Version.mk 1 0 0 "alpha" "").serialize
      = .error (.UnsuportVersion "1.0.0-alpha") ∧
    ∀ v : Version,
      (∃ s, v.serialize = .error (.UnsuportVersion s)) ↔
        (v.major > MAX_VERSION_NUM ∨ v.minor > MAX_VERSION_NUM ∨
          v.patch > MAX_VERSION_NUM ∨ v.pre ≠ "" ∨ v.build ≠ "") := by
  refine ⟨by decide, by decide, by decide, ?_⟩
  intro v
  constructor
  · rintro ⟨s, hs⟩
    by_contra hc
    push_neg at hc
    obtain ⟨h1, h2, h3, h4, h5⟩ := hc
    rw [Version.serialize, if_neg (by simp [h4, h5]),
      if_neg (by push_neg; exact ⟨h1, h2, h3⟩)] at hs
    exact Except.noConfusion hs
  · intro hc
    by_cases hpre : v.pre ≠ "" ∨ v.build ≠ ""
    · exact ⟨v.toString, by rw [Version.serialize, if_pos hpre]⟩
    · have hnum : v.major > MAX_VERSION_NUM ∨ v.minor > MAX_VERSION_NUM
          ∨ v.patch > MAX_VERSION_NUM := by tauto
      exact ⟨v.toString, by rw [Version.serialize, if_neg hpre, if_pos hnum]⟩

/-- Claim C9: on any byte source of at least 6 bytes, deserialization
succeeds, consumes exactly 6 bytes, yields a release-only version whose
components are at most 65535, and re-serializing it reproduces the 6
consumed bytes. -/
theorem semver_deserialize_total (l : List Nat) (hlen : 6 ≤ l.length)
    (hb : ∀ b ∈ l, b < 256) :
    ∃ v rest, Version.deserialize l = .ok (v, rest) ∧ rest = l.drop 6 ∧
      v.major ≤ MAX_VERSION_NUM ∧ v.minor ≤ MAX_VERSION_NUM ∧
      v.patch ≤ MAX_VERSION_NUM ∧ v.pre = "" ∧ v.build = "" ∧
      v.serialize = .ok (l.take 6) := by
  rcases l with _ | ⟨b0, l⟩
  · simp at hlen
  rcases l with _ | ⟨b1, l⟩
  · simp at hlen
  rcases l with _ | ⟨b2, l⟩
  · simp at hlen
  rcases l with _ | ⟨b3, l⟩
  · simp at hlen
  rcases l with _ | ⟨b4, l⟩
  · simp at hlen
  rcases l with _ | ⟨b5, rest⟩
  · simp at hlen
  have h0 : b0 < 256 := hb b0 (by simp)
  have h1 : b1 < 256 := hb b1 (by simp)
  have h2 : b2 < 256 := hb b2 (by simp)
  have h3 : b3 < 256 := hb b3 (by simp)
  have h4 : b4 < 256 := hb b4 (by simp)
  have h5 : b5 < 256 := hb b5 (by simp)
  refine ⟨Version.new (b0 + b1 * 256) (b2 + b3 * 256) (b4 + b5 * 256), rest,
    rfl, rfl, by simp [Version.new, MAX_VERSION_NUM]; omega,
    by simp [Version.new, MAX_VERSION_NUM]; omega,
    by simp [Version.new, MAX_VERSION_NUM]; omega, rfl, rfl, ?_⟩
  have hc1 : ¬((Version.new (b0 + b1 * 256) (b2 + b3 * 256)
      (b4 + b5 * 256)).pre ≠ "" ∨
      (Version.new (b0 + b1 * 256) (b2 + b3 * 256) (b4 + b5 * 256)).build
        ≠ "") := by
    simp [Version.new]
  have hc2 : ¬((Version.new (b0 + b1 * 256) (b2 + b3 * 256)
        (b4 + b5 * 256)).major > MAX_VERSION_NUM ∨
      (Version.new (b0 + b1 * 256) (b2 + b3 * 256) (b4 + b5 * 256)).minor
        > MAX_VERSION_NUM ∨
      (Version.new (b0 + b1 * 256) (b2 + b3 * 256) (b4 + b5 * 256)).patch
        > MAX_VERSION_NUM) := by
    simp [Version.new, MAX_VERSION_NUM]
    omega
  rw [Version.serialize, if_neg hc1, if_neg hc2]
  have e0 : (b0 + b1 * 256) % 256 = b0 := by omega
  have e1 : (b0 + b1 * 256) / 256 = b1 := by omega
  have e2 : (b2 + b3 * 256) % 256 = b2 := by omega
  have e3 : (b2 + b3 * 256) / 256 = b3 := by omega
  have e4 : (b4 + b5 * 256) % 256 = b4 := by omega
  have e5 : (b4 + b5 * 256) / 256 = b5 := by omega
  simp [le16, Version.new, e0, e1, e2, e3, e4, e5]

/-- Witness for C9 on a concrete 7-byte source. -/
theorem semver_deserialize_total_witness :
    ∃ v rest, Version.deserialize [3, 0, 0, 0, 14, 0, 99] = .ok (v, rest) ∧
      rest = [3, 0, 0, 0, 14, 0, 99].drop 6 ∧
      v.major ≤ MAX_VERSION_NUM ∧ v.minor ≤ MAX_VERSION_NUM ∧
      v.patch ≤ MAX_VERSION_NUM ∧ v.pre = "" ∧ v.build = "" ∧
      v.serialize = .ok ([3, 0, 0, 0, 14, 0, 99].take 6) :=
  semver_deserialize_total [3, 0, 0, 0, 14, 0, 99] (by decide) (by decide)

/-- Appending the override set of root `R + 1` to the walked prefix does
not change the resolution when that set has no override for `t`. -/
theorem firstOverride_take_succ (m : RootVersionMap) (t R : Nat)
    (hR : R < m.versions.length)
    (hno : (m.versions.getD R []).lookup t = none) :
    firstOverride t ((m.versions.take (R + 1)).reverse)
      = firstOverride t ((m.versions.take R).reverse) := by
  have h1 : m.versions.take (R + 1)
      = m.versions.take R ++ [m.versions.getD R []] := by
    rw [List.take_succ, List.getElem?_eq_getElem hR,
      List.getD_eq_getElem _ _ hR]
    rfl
  rw [h1, List.reverse_append, List.reverse_singleton, List.singleton_append]
  simp only [firstOverride]
  rw [hno]

/-- One backward step of the resolution walk: a root with no override for
`t` resolves `t` exactly as the root before it. -/
theorem get_type_version_succ (m : RootVersionMap) (t R : Nat)
    (hR : R + 1 ≤ m.versions.length)
    (hno : (m.versions.getD R []).lookup t = none) :
    m.get_type_version (R + 1) t = m.get_type_version R t := by
  unfold RootVersionMap.get_type_version
  rw [if_pos hR, if_pos (by omega)]
  exact congrArg some (firstOverride_take_succ m t R (by omega) hno)

/-- Claim C5: for roots `R1 < R2` within the map with no explicit
override for `t` at any root strictly between them nor at `R2`,
`resolve(R1, t)` equals `resolve(R2, t)`. -/
theorem resolve_monotone (m : RootVersionMap) (t R1 R2 : Nat)
    (hR1 : 1 ≤ R1) (h12 : R1 < R2) (h2 : R2 ≤ m.versions.length)
    (hno : ∀ r, R1 < r → r ≤ R2 →
      (m.versions.getD (r - 1) []).lookup t = none) :
    m.get_type_version R1 t = m.get_type_version R2 t := by
  induction R2 with
  | zero => omega
  | succ n ih =>
    have hstep : m.get_type_version (n + 1) t = m.get_type_version n t :=
      get_type_version_succ m t n h2 (hno (n + 1) h12 le_rfl)
    by_cases hn : R1 < n
    · rw [hstep]
      exact ih hn (by omega) (fun r hr1 hr2 => hno r hr1 (by omega))
    · have : R1 = n := by omega
      rw [hstep, this]

/-- Witness for C5 on the worked fixture map: type 0 gains no override
between roots 2 and 3. -/
theorem resolve_monotone_witness :
    RootVersionMap.get_type_version ⟨[[], [(0, 2)], []]⟩ 2 0
      = RootVersionMap.get_type_version ⟨[[], [(0, 2)], []]⟩ 3 0 :=
  resolve_monotone ⟨[[], [(0, 2)], []]⟩ 0 2 3 (by decide) (by decide)
    (by decide)
    (by
      intro r hr1 hr2
      have hr : r = 3 := by omega
      subst hr
      decide)
